import Mathlib

/-!
Verification of the Tamil_Literature_Analysis (ValluvarAI) repository
against its specification. The supplied sources contain the React/TS UI
layer (search panel, timeline chart, API client, dashboard), the shipped
default configuration, and documentation; the content-generation pipeline
and cache described by the configuration (`valluvarai/utils/cache.py`,
the agents and services) are not among the supplied sources, so those
components are modelled from the specification, as signalled on each
definition.
-/

namespace ValluvarAI

/-- Modelled from the spec: `CacheEntry` of the data model — `{key, payload,
created_at, ttl, size_bytes}`; the cache implementation
(`valluvarai/utils/cache.py`) is not among the supplied sources. The expiry
time is `created_at + ttl`. -/
structure CacheEntry where
  key : String
  payload : String
  createdAt : Nat
  ttl : Nat
  sizeBytes : Nat
deriving DecidableEq

/-- Modelled from the spec: eviction order — ascending `created_at`, ties
broken by key lexical order for determinism. -/
def entryLE (e1 e2 : CacheEntry) : Prop :=
  e1.createdAt < e2.createdAt ∨ (e1.createdAt = e2.createdAt ∧ e1.key ≤ e2.key)

instance : DecidableRel entryLE := fun e1 e2 => by
  unfold entryLE
  infer_instance

instance : IsTotal CacheEntry entryLE where
  total e1 e2 := by
    rcases Nat.lt_trichotomy e1.createdAt e2.createdAt with h | h | h
    · exact Or.inl (Or.inl h)
    · rcases le_total e1.key e2.key with hk | hk
      · exact Or.inl (Or.inr ⟨h, hk⟩)
      · exact Or.inr (Or.inr ⟨h.symm, hk⟩)
    · exact Or.inr (Or.inl h)

instance : IsTrans CacheEntry entryLE where
  trans e1 e2 e3 h12 h23 := by
    rcases h12 with h12 | ⟨h12, hk12⟩ <;> rcases h23 with h23 | ⟨h23, hk23⟩
    · exact Or.inl (h12.trans h23)
    · exact Or.inl (lt_of_lt_of_le h12 (le_of_eq h23))
    · exact Or.inl (lt_of_le_of_lt (le_of_eq h12) h23)
    · exact Or.inr ⟨h12.trans h23, hk12.trans hk23⟩

/-- Total size in bytes of a list of cache entries. -/
def totalSize (l : List CacheEntry) : Nat :=
  (l.map (fun e => e.sizeBytes)).sum

/-- Modelled from the spec: the eviction loop — with the entries in eviction
order (oldest first), drop from the front while the total size exceeds the
budget. -/
def dropOldestWhileOver (maxSize : Nat) : List CacheEntry → List CacheEntry
  | [] => []
  | e :: rest =>
    if totalSize (e :: rest) ≤ maxSize then e :: rest
    else dropOldestWhileOver maxSize rest

/-- Modelled from the spec: eviction — entries sorted ascending by
(`created_at`, key) and evicted oldest-first until the total size is within
`max_size_bytes`. -/
def evict (maxSize : Nat) (l : List CacheEntry) : List CacheEntry :=
  dropOldestWhileOver maxSize (l.insertionSort entryLE)

/-- Modelled from the spec: the Cache Store state — the configured maximum
total size plus the stored entries. -/
structure Cache where
  maxSizeBytes : Nat
  entries : List CacheEntry

/-- An entry is expired when `created_at + ttl < now`. -/
def expired (e : CacheEntry) (now : Nat) : Bool :=
  e.createdAt + e.ttl < now

/-- Modelled from the spec: `get` — absent (`none`), not an error, for a
missing or expired key, otherwise the stored entry. -/
def get (c : Cache) (k : String) (now : Nat) : Option CacheEntry :=
  match c.entries.find? (fun e => e.key == k) with
  | none => none
  | some e => if expired e now then none else some e

/-- Modelled from the spec: `put` — last write wins for a given key, and an
insert that would exceed `max_size_bytes` evicts oldest-first until under
budget. -/
def put (c : Cache) (k v : String) (ttl sizeBytes now : Nat) : Cache :=
  { c with
    entries :=
      evict c.maxSizeBytes
        ((c.entries.filter (fun e => !(e.key == k))) ++
          [⟨k, v, now, ttl, sizeBytes⟩]) }

/-- Modelled from the spec: the maintenance pass — physically removes
expired entries from the store. -/
def maintenance (c : Cache) (now : Nat) : Cache :=
  { c with entries := c.entries.filter (fun e => !(expired e now)) }

/-- Whether the store currently holds an entry for key `k`. -/
def containsKey (c : Cache) (k : String) : Bool :=
  c.entries.any (fun e => e.key == k)

theorem totalSize_dropOldestWhileOver_le (maxSize : Nat) :
    ∀ l : List CacheEntry, totalSize (dropOldestWhileOver maxSize l) ≤ maxSize
  | [] => by simp [dropOldestWhileOver, totalSize]
  | e :: rest => by
    rw [dropOldestWhileOver]
    split
    next h => exact h
    next h => exact totalSize_dropOldestWhileOver_le maxSize rest

theorem dropOldestWhileOver_suffix (maxSize : Nat) :
    ∀ l : List CacheEntry, ∃ pre, l = pre ++ dropOldestWhileOver maxSize l
  | [] => ⟨[], rfl⟩
  | e :: rest => by
    rw [dropOldestWhileOver]
    split
    next => exact ⟨[], rfl⟩
    next =>
      obtain ⟨pre, hpre⟩ := dropOldestWhileOver_suffix maxSize rest
      exact ⟨e :: pre, by rw [List.cons_append, ← hpre]⟩

theorem mem_of_mem_dropOldestWhileOver {maxSize : Nat} {l : List CacheEntry}
    {e : CacheEntry} (h : e ∈ dropOldestWhileOver maxSize l) : e ∈ l := by
  obtain ⟨pre, hpre⟩ := dropOldestWhileOver_suffix maxSize l
  rw [hpre]
  exact List.mem_append_right pre h

theorem dropOldest_order {maxSize : Nat} {l : List CacheEntry}
    (hs : List.Sorted entryLE l) {e1 e2 : CacheEntry}
    (h1 : e1 ∈ l) (h1n : e1 ∉ dropOldestWhileOver maxSize l)
    (h2 : e2 ∈ dropOldestWhileOver maxSize l) : entryLE e1 e2 := by
  obtain ⟨pre, hpre⟩ := dropOldestWhileOver_suffix maxSize l
  rw [hpre] at h1 hs
  rcases List.mem_append.mp h1 with h1p | h1k
  · exact (List.pairwise_append.mp hs).2.2 e1 h1p e2 h2
  · exact absurd h1k h1n

theorem totalSize_evict_le (maxSize : Nat) (l : List CacheEntry) :
    totalSize (evict maxSize l) ≤ maxSize :=
  totalSize_dropOldestWhileOver_le maxSize _

theorem mem_of_mem_evict {maxSize : Nat} {l : List CacheEntry} {e : CacheEntry}
    (h : e ∈ evict maxSize l) : e ∈ l :=
  (List.mem_insertionSort entryLE).mp (mem_of_mem_dropOldestWhileOver h)

theorem evict_order {maxSize : Nat} {l : List CacheEntry} {e1 e2 : CacheEntry}
    (h1 : e1 ∈ l) (h1n : e1 ∉ evict maxSize l) (h2 : e2 ∈ evict maxSize l) :
    entryLE e1 e2 :=
  dropOldest_order (List.sorted_insertionSort entryLE l)
    ((List.mem_insertionSort entryLE).mpr h1) h1n h2

theorem put_key_unique {c : Cache} {k v : String} {ttl sz now : Nat}
    {e : CacheEntry} (he : e ∈ (put c k v ttl sz now).entries) (hk : e.key = k) :
    e = ⟨k, v, now, ttl, sz⟩ := by
  have hmem : e ∈ (c.entries.filter (fun x => !(x.key == k))) ++
      [(⟨k, v, now, ttl, sz⟩ : CacheEntry)] := mem_of_mem_evict he
  rcases List.mem_append.mp hmem with hf | hs
  · have hp := List.of_mem_filter hf
    simp [hk] at hp
  · simpa using hs

theorem get_put_helper (c : Cache) (k v : String) (ttl sz now : Nat)
    (h : containsKey (put c k v ttl sz now) k = true) :
    get (put c k v ttl sz now) k now = some ⟨k, v, now, ttl, sz⟩ := by
  unfold containsKey at h
  unfold get
  cases hf : (put c k v ttl sz now).entries.find? (fun e => e.key == k) with
  | none =>
    rw [List.find?_eq_none] at hf
    rcases List.any_eq_true.mp h with ⟨e, he, hek⟩
    exact absurd hek (hf e he)
  | some e =>
    have hek := List.find?_some hf
    have hmem : e ∈ (put c k v ttl sz now).entries := List.mem_of_find?_eq_some hf
    have hEq : e = ⟨k, v, now, ttl, sz⟩ := put_key_unique hmem (by simpa using hek)
    subst hEq
    have hexp : expired ⟨k, v, now, ttl, sz⟩ now = false := by
      simp [expired]
    simp [hexp]

/-- C1: a `put(K, V)` followed immediately by `get(K)` returns the entry
just written (read-your-write), for as long as the key survived the
insert's eviction; and when the same key is put twice, the later write
wins. -/
theorem cache_read_your_write (c : Cache) (k v v1 : String)
    (ttl sz now ttl1 sz1 now1 : Nat) :
    (containsKey (put c k v ttl sz now) k = true →
      get (put c k v ttl sz now) k now = some ⟨k, v, now, ttl, sz⟩) ∧
    (containsKey (put (put c k v1 ttl1 sz1 now1) k v ttl sz now) k = true →
      get (put (put c k v1 ttl1 sz1 now1) k v ttl sz now) k now
        = some ⟨k, v, now, ttl, sz⟩) :=
  ⟨get_put_helper c k v ttl sz now,
   get_put_helper (put c k v1 ttl1 sz1 now1) k v ttl sz now⟩

/-- Witness for C1: read-your-write and last-write-wins at a concrete
cache, key and pair of writes. -/
theorem cache_read_your_write_witness :
    get (put ⟨100, []⟩ "a" "x" 1 1 0) "a" 0 = some ⟨"a", "x", 0, 1, 1⟩ ∧
    get (put (put ⟨100, []⟩ "a" "w" 5 1 0) "a" "x" 1 1 0) "a" 0
      = some ⟨"a", "x", 0, 1, 1⟩ :=
  ⟨(cache_read_your_write ⟨100, []⟩ "a" "x" "w" 1 1 0 5 1 0).1 (by decide),
   (cache_read_your_write ⟨100, []⟩ "a" "x" "w" 1 1 0 5 1 0).2 (by decide)⟩

/-- C2: `get` never returns an entry with `created_at + ttl < now`; a
missing or an expired key yields absent (`none`), and the maintenance pass
removes exactly the expired entries from the store. -/
theorem get_never_expired (c : Cache) (k : String) (now : Nat) (e : CacheEntry) :
    (get c k now = some e → ¬ (e.createdAt + e.ttl < now)) ∧
    (c.entries.find? (fun x => x.key == k) = none → get c k now = none) ∧
    (∀ e1, c.entries.find? (fun x => x.key == k) = some e1 →
      e1.createdAt + e1.ttl < now → get c k now = none) ∧
    (∀ e1 ∈ (maintenance c now).entries, ¬ (e1.createdAt + e1.ttl < now)) ∧
    (∀ e1 ∈ c.entries, e1.createdAt + e1.ttl < now →
      e1 ∉ (maintenance c now).entries) := by
  refine ⟨?_, ?_, ?_, ?_, ?_⟩
  · intro hg
    cases hf : c.entries.find? (fun x => x.key == k) with
    | none => simp [get, hf] at hg
    | some e2 =>
      by_cases hex : expired e2 now = true
      · simp [get, hf, hex] at hg
      · simp [get, hf, hex] at hg
        subst hg
        simpa [expired] using hex
  · intro hf
    simp [get, hf]
  · intro e1 hf hex
    simp [get, hf, expired, hex]
  · intro e1 h1
    have hp := List.of_mem_filter h1
    simpa [expired] using hp
  · intro e1 h1 hex hmem
    have hp := List.of_mem_filter hmem
    simp [expired] at hp
    exact absurd hex (by omega)

/-- Witness for C2 at a concrete cache holding one live and one expired
entry, observed at time 5. -/
theorem get_never_expired_witness :
    ¬ ((0 : Nat) + 10 < 5) ∧
    get ⟨100, [⟨"a", "x", 0, 10, 1⟩, ⟨"b", "y", 0, 1, 1⟩]⟩ "c" 5 = none ∧
    get ⟨100, [⟨"a", "x", 0, 10, 1⟩, ⟨"b", "y", 0, 1, 1⟩]⟩ "b" 5 = none ∧
    (⟨"b", "y", 0, 1, 1⟩ : CacheEntry) ∉
      (maintenance ⟨100, [⟨"a", "x", 0, 10, 1⟩, ⟨"b", "y", 0, 1, 1⟩]⟩ 5).entries := by
  refine ⟨?_, ?_, ?_, ?_⟩
  · exact (get_never_expired ⟨100, [⟨"a", "x", 0, 10, 1⟩, ⟨"b", "y", 0, 1, 1⟩]⟩
      "a" 5 ⟨"a", "x", 0, 10, 1⟩).1 (by decide)
  · exact (get_never_expired ⟨100, [⟨"a", "x", 0, 10, 1⟩, ⟨"b", "y", 0, 1, 1⟩]⟩
      "c" 5 ⟨"a", "x", 0, 10, 1⟩).2.1 (by decide)
  · exact (get_never_expired ⟨100, [⟨"a", "x", 0, 10, 1⟩, ⟨"b", "y", 0, 1, 1⟩]⟩
      "b" 5 ⟨"a", "x", 0, 10, 1⟩).2.2.1 ⟨"b", "y", 0, 1, 1⟩ (by decide) (by decide)
  · exact (get_never_expired ⟨100, [⟨"a", "x", 0, 10, 1⟩, ⟨"b", "y", 0, 1, 1⟩]⟩
      "b" 5 ⟨"a", "x", 0, 10, 1⟩).2.2.2.2 ⟨"b", "y", 0, 1, 1⟩ (by decide) (by decide)

theorem totalSize_filter_le (p : CacheEntry → Bool) (l : List CacheEntry) :
    totalSize (l.filter p) ≤ totalSize l := by
  induction l with
  | nil => simp [totalSize]
  | cons e rest ih =>
    rw [List.filter_cons]
    split
    · simp only [totalSize, List.map_cons, List.sum_cons] at *
      omega
    · simp only [totalSize, List.map_cons, List.sum_cons] at *
      omega

/-- C3: `put` keeps the total stored size within `max_size_bytes`, any
entry evicted by the insert precedes every kept entry in ascending
(`created_at`, key) order, and the maintenance pass never increases the
total size. -/
theorem cache_size_bounded (c : Cache) (k v : String) (ttl sz now : Nat) :
    totalSize (put c k v ttl sz now).entries ≤ c.maxSizeBytes ∧
    (∀ e1 ∈ (c.entries.filter (fun e => !(e.key == k))) ++
        [(⟨k, v, now, ttl, sz⟩ : CacheEntry)],
      e1 ∉ (put c k v ttl sz now).entries →
      ∀ e2 ∈ (put c k v ttl sz now).entries, entryLE e1 e2) ∧
    totalSize (maintenance c now).entries ≤ totalSize c.entries := by
  refine ⟨totalSize_evict_le _ _, ?_, totalSize_filter_le _ _⟩
  intro e1 h1 h1n e2 h2
  exact evict_order h1 h1n h2

/-- Witness for C3: a concrete insert that overflows a 2-byte budget evicts
the older entry and stays within the maximum. -/
theorem cache_size_bounded_witness :
    totalSize (put ⟨2, [⟨"old", "p", 0, 9, 2⟩]⟩ "new" "q" 9 2 5).entries ≤ 2 ∧
    entryLE ⟨"old", "p", 0, 9, 2⟩ ⟨"new", "q", 5, 9, 2⟩ :=
  ⟨(cache_size_bounded ⟨2, [⟨"old", "p", 0, 9, 2⟩]⟩ "new" "q" 9 2 5).1,
   (cache_size_bounded ⟨2, [⟨"old", "p", 0, 9, 2⟩]⟩ "new" "q" 9 2 5).2.1
     ⟨"old", "p", 0, 9, 2⟩ (by decide) (by decide) ⟨"new", "q", 5, 9, 2⟩ (by decide)⟩

/-- Modelled from the spec: error classification — `Transient` (eligible
for one retry) or `Permanent` (no retry); the Provider Gateway
(`valluvarai/services`) is not among the supplied sources. -/
inductive ErrClass
  | transient
  | permanent
deriving DecidableEq

/-- One attempt of an external provider: success with an artifact, or a
classified failure. -/
inductive ProviderResult
  | success (artifact : String)
  | failure (c : ErrClass)
deriving DecidableEq

/-- An external provider, as a map from attempt index to what that attempt
returns. -/
structure Provider where
  attempt : Nat → ProviderResult

/-- Outcome the Gateway surfaces to a Stage Executor. -/
inductive GatewayResult
  | ok (artifact : String)
  | error (c : ErrClass)
deriving DecidableEq

/-- Modelled from the spec: `invoke` of the Provider Gateway — a Transient
first failure is retried exactly once internally; a failure after the
retry is surfaced as `Permanent`; a Permanent first failure is surfaced
without retry. -/
def invoke (p : Provider) : GatewayResult :=
  match p.attempt 0 with
  | .success a => .ok a
  | .failure .permanent => .error .permanent
  | .failure .transient =>
    match p.attempt 1 with
    | .success a => .ok a
    | .failure _ => .error .permanent

/-- Number of provider calls the Gateway makes for one `invoke`. -/
def invokeCalls (p : Provider) : Nat :=
  match p.attempt 0 with
  | .failure .transient => 2
  | _ => 1

/-- Observability tag on a stage result (`source` of the data model). -/
inductive Source
  | cache_hit
  | provider
  | placeholder
deriving DecidableEq

/-- Outcome a Stage Executor surfaces to the Orchestrator. -/
inductive StageOutcome
  | ok (artifact : String) (src : Source)
  | stageFailed (c : ErrClass)
deriving DecidableEq

/-- Modelled from the spec: the common Stage Executor protocol — cache hit
first, then the Gateway, then the configured fallback artifact; only when
no fallback artifact is available is `StageFailed` surfaced. -/
def executeStage (cached : Option String) (p : Provider)
    (fallback : Option String) : StageOutcome :=
  match cached with
  | some a => .ok a .cache_hit
  | none =>
    match invoke p with
    | .ok a => .ok a .provider
    | .error c =>
      match fallback with
      | some f => .ok f .placeholder
      | none => .stageFailed c

/-- C6: a Transient first failure is retried exactly once (two provider
calls) and surfaced as Permanent when the retry also fails; a Permanent
first failure is never retried; and a Stage Executor surfaces
`StageFailed` only when no fallback artifact is configured. -/
theorem gateway_retry_policy (p : Provider) (cached fallback : Option String)
    (c c1 : ErrClass) :
    (p.attempt 0 = .failure .transient → invokeCalls p = 2 ∧
      (p.attempt 1 = .failure c1 → invoke p = .error .permanent)) ∧
    (p.attempt 0 = .failure .permanent →
      invokeCalls p = 1 ∧ invoke p = .error .permanent) ∧
    (executeStage cached p fallback = .stageFailed c → fallback = none) := by
  refine ⟨?_, ?_, ?_⟩
  · intro h0
    refine ⟨by simp [invokeCalls, h0], ?_⟩
    intro h1
    simp [invoke, h0, h1]
  · intro h0
    simp [invokeCalls, invoke, h0]
  · intro hs
    unfold executeStage at hs
    cases cached with
    | some a => simp at hs
    | none =>
      cases hi : invoke p with
      | ok a => rw [hi] at hs; simp at hs
      | error c2 =>
        rw [hi] at hs
        cases fallback with
        | some f => simp at hs
        | none => rfl

/-- Witness for C6 with a provider that always fails Transient, one that
fails Permanent, and a stage run with no fallback configured. -/
theorem gateway_retry_policy_witness :
    invokeCalls ⟨fun _ => .failure .transient⟩ = 2 ∧
    invoke ⟨fun _ => .failure .transient⟩ = .error .permanent ∧
    invokeCalls ⟨fun _ => .failure .permanent⟩ = 1 ∧
    executeStage none ⟨fun _ => .failure .permanent⟩ none
      = .stageFailed .permanent ∧
    (none : Option String) = none := by
  refine ⟨?_, ?_, ?_, by rfl, ?_⟩
  · exact ((gateway_retry_policy ⟨fun _ => .failure .transient⟩ none none
      .permanent .transient).1 rfl).1
  · exact ((gateway_retry_policy ⟨fun _ => .failure .transient⟩ none none
      .permanent .transient).1 rfl).2 rfl
  · exact ((gateway_retry_policy ⟨fun _ => .failure .permanent⟩ none none
      .permanent .transient).2.1 rfl).1
  · exact (gateway_retry_policy ⟨fun _ => .failure .permanent⟩ none none
      .permanent .transient).2.2 (by rfl)

/-- Modelled from the spec: `GenerationRequest` — keyword plus flags for
the optional outputs. -/
structure GenerationRequest where
  keyword : String
  include_images : Bool
  include_video : Bool

/-- Pipeline stage names. -/
inductive StageName
  | story
  | image
  | narration
  | video
deriving DecidableEq

/-- Per-stage status reported in the outcome. -/
inductive StageStatus
  | succeeded
  | degraded (reason : String)
  | failed (reason : String)
deriving DecidableEq

/-- Modelled from the spec: `PipelineOutcome` — whichever stage results
were produced, a per-stage status list, and the terminal abort, if any. -/
structure PipelineOutcome where
  story : Option (String × Source)
  image : Option (String × Source)
  narration : Option (String × Source)
  video : Option (String × Source)
  statuses : List (StageName × StageStatus)
  aborted : Option (StageName × String)
deriving DecidableEq

/-- Modelled from the spec: configuration and providers injected into the
Orchestrator at construction time (design note of §9). -/
structure Env where
  textProvider : Provider
  imageProvider : Provider
  audioProvider : Provider
  videoProvider : Provider
  fallback_to_template : Bool
  fallback_to_placeholder : Bool
  templateStory : String
  placeholderImage : String

/-- Human-readable reason attached to a classified failure. -/
def reasonOf (c : ErrClass) : String :=
  match c with
  | .transient => "transient provider failure"
  | .permanent => "permanent provider failure"

/-- Modelled from the spec: the Pipeline Orchestrator `generate` — Story
first (fatal on failure), then Image and Narration as the request's flags
demand, then Video only when its inputs are available; an Image or
Narration failure is fatal only for Video. A fresh request is modelled, so
no cached artifacts are passed to the stages. -/
def generate (env : Env) (req : GenerationRequest) : PipelineOutcome :=
  let storyFallback :=
    if env.fallback_to_template then some env.templateStory else none
  match executeStage none env.textProvider storyFallback with
  | .stageFailed c =>
    { story := none, image := none, narration := none, video := none
      statuses := [(.story, .failed (reasonOf c))]
      aborted := some (.story, reasonOf c) }
  | .ok storyArt storySrc =>
    let storyStatus : StageName × StageStatus :=
      (.story,
        if storySrc = .placeholder then .degraded "template story used"
        else .succeeded)
    let imgFallback :=
      if env.fallback_to_placeholder then some env.placeholderImage else none
    let imageRun : Option StageOutcome :=
      if req.include_images || req.include_video then
        some (executeStage none env.imageProvider imgFallback)
      else none
    let narrRun : Option StageOutcome :=
      if req.include_video then some (executeStage none env.audioProvider none)
      else none
    let imageRes : Option (String × Source) :=
      match imageRun with
      | some (.ok a s) => some (a, s)
      | _ => none
    let narrRes : Option (String × Source) :=
      match narrRun with
      | some (.ok a s) => some (a, s)
      | _ => none
    let imageStatus : List (StageName × StageStatus) :=
      match imageRun with
      | none => []
      | some (.ok _ s) =>
        [(.image,
          if s = .placeholder then .degraded "placeholder image used"
          else .succeeded)]
      | some (.stageFailed c) => [(.image, .failed (reasonOf c))]
    let narrStatus : List (StageName × StageStatus) :=
      match narrRun with
      | none => []
      | some (.ok _ _) => [(.narration, .succeeded)]
      | some (.stageFailed c) => [(.narration, .failed (reasonOf c))]
    let videoRun : Option StageOutcome :=
      if req.include_video then
        match imageRes, narrRes with
        | some _, some _ => some (executeStage none env.videoProvider none)
        | _, _ => none
      else none
    let videoRes : Option (String × Source) :=
      match videoRun with
      | some (.ok a s) => some (a, s)
      | _ => none
    let videoStatus : List (StageName × StageStatus) :=
      if req.include_video then
        match videoRun with
        | some (.ok _ _) => [(.video, .succeeded)]
        | some (.stageFailed c) => [(.video, .failed (reasonOf c))]
        | none => [(.video, .failed "missing image or narration input")]
      else []
    { story := some (storyArt, storySrc)
      image := imageRes
      narration := narrRes
      video := videoRes
      statuses := storyStatus :: (imageStatus ++ narrStatus ++ videoStatus)
      aborted := none }

/-- C4: when the Story stage fails with `fallback_to_template = false`,
`generate` returns `Aborted(story, reason)` and the outcome carries no
Image, Narration or Video result. -/
theorem story_failure_aborts (env : Env) (req : GenerationRequest)
    (c : ErrClass) (htv : env.fallback_to_template = false)
    (hp : invoke env.textProvider = .error c) :
    (generate env req).aborted = some (.story, reasonOf c) ∧
    (generate env req).image = none ∧
    (generate env req).narration = none ∧
    (generate env req).video = none := by
  have hstage : executeStage none env.textProvider
      (if env.fallback_to_template then some env.templateStory else none)
      = .stageFailed c := by
    simp [executeStage, hp, htv]
  simp [generate, hstage]

/-- Witness for C4: a permanently failing text provider with template
fallback disabled aborts the whole request. -/
theorem story_failure_aborts_witness :
    (generate
      ⟨⟨fun _ => .failure .permanent⟩, ⟨fun _ => .success "i"⟩,
       ⟨fun _ => .success "n"⟩, ⟨fun _ => .success "v"⟩,
       false, true, "tpl", "ph"⟩
      ⟨"forgiveness", true, true⟩).aborted
      = some (.story, reasonOf .permanent) ∧
    (generate
      ⟨⟨fun _ => .failure .permanent⟩, ⟨fun _ => .success "i"⟩,
       ⟨fun _ => .success "n"⟩, ⟨fun _ => .success "v"⟩,
       false, true, "tpl", "ph"⟩
      ⟨"forgiveness", true, true⟩).image = none :=
  ⟨(story_failure_aborts
      ⟨⟨fun _ => .failure .permanent⟩, ⟨fun _ => .success "i"⟩,
       ⟨fun _ => .success "n"⟩, ⟨fun _ => .success "v"⟩,
       false, true, "tpl", "ph"⟩
      ⟨"forgiveness", true, true⟩ .permanent rfl rfl).1,
   (story_failure_aborts
      ⟨⟨fun _ => .failure .permanent⟩, ⟨fun _ => .success "i"⟩,
       ⟨fun _ => .success "n"⟩, ⟨fun _ => .success "v"⟩,
       false, true, "tpl", "ph"⟩
      ⟨"forgiveness", true, true⟩ .permanent rfl rfl).2.1⟩

/-- C5: when Video is not requested, the image provider fails and
`fallback_to_placeholder = true`, the Image stage result is tagged
`source = placeholder` and the Orchestrator marks the request degraded,
not aborted. -/
theorem image_failure_degrades (env : Env) (req : GenerationRequest)
    (a : String) (s : Source) (c : ErrClass)
    (hs : executeStage none env.textProvider
      (if env.fallback_to_template then some env.templateStory else none)
      = .ok a s)
    (hImages : req.include_images = true)
    (hVideo : req.include_video = false)
    (hfb : env.fallback_to_placeholder = true)
    (hip : invoke env.imageProvider = .error c) :
    (generate env req).image = some (env.placeholderImage, .placeholder) ∧
    (generate env req).aborted = none ∧
    (StageName.image, StageStatus.degraded "placeholder image used")
      ∈ (generate env req).statuses := by
  have himg : executeStage none env.imageProvider
      (if env.fallback_to_placeholder then some env.placeholderImage else none)
      = .ok env.placeholderImage .placeholder := by
    simp [executeStage, hip, hfb]
  simp [generate, hs, himg, hImages, hVideo]

/-- Witness for C5: a healthy text provider, a permanently failing image
provider with placeholder fallback, and a request for images only. -/
theorem image_failure_degrades_witness :
    (generate
      ⟨⟨fun _ => .success "st"⟩, ⟨fun _ => .failure .permanent⟩,
       ⟨fun _ => .success "n"⟩, ⟨fun _ => .success "v"⟩,
       true, true, "tpl", "ph"⟩
      ⟨"forgiveness", true, false⟩).image = some ("ph", .placeholder) ∧
    (generate
      ⟨⟨fun _ => .success "st"⟩, ⟨fun _ => .failure .permanent⟩,
       ⟨fun _ => .success "n"⟩, ⟨fun _ => .success "v"⟩,
       true, true, "tpl", "ph"⟩
      ⟨"forgiveness", true, false⟩).aborted = none :=
  ⟨(image_failure_degrades
      ⟨⟨fun _ => .success "st"⟩, ⟨fun _ => .failure .permanent⟩,
       ⟨fun _ => .success "n"⟩, ⟨fun _ => .success "v"⟩,
       true, true, "tpl", "ph"⟩
      ⟨"forgiveness", true, false⟩ "st" .provider .permanent
      rfl rfl rfl rfl rfl).1,
   (image_failure_degrades
      ⟨⟨fun _ => .success "st"⟩, ⟨fun _ => .failure .permanent⟩,
       ⟨fun _ => .success "n"⟩, ⟨fun _ => .success "v"⟩,
       true, true, "tpl", "ph"⟩
      ⟨"forgiveness", true, false⟩ "st" .provider .permanent
      rfl rfl rfl rfl rfl).2.1⟩

/-- Leaf option paths of the shipped default configuration
(`valluvarai/config/default_config.json`, reproduced in the README). -/
def shippedConfigPaths : List (List String) := [
  ["api_keys", "openai"],
  ["api_keys", "stability"],
  ["api_keys", "leonardo"],
  ["api_keys", "elevenlabs"],
  ["services", "cache", "enable_caching"],
  ["services", "cache", "cache_dir"],
  ["services", "cache", "max_cache_size_mb"],
  ["services", "cache", "cache_expiry_days"],
  ["services", "image_generation", "provider"],
  ["services", "image_generation", "model"],
  ["services", "image_generation", "image_size"],
  ["services", "image_generation", "fallback_to_placeholder"],
  ["services", "image_generation", "output_dir"],
  ["services", "audio_generation", "provider"],
  ["services", "audio_generation", "tamil_voice_id"],
  ["services", "audio_generation", "english_voice_id"],
  ["services", "audio_generation", "output_dir"],
  ["services", "video_generation", "default_fps"],
  ["services", "video_generation", "default_duration"],
  ["services", "video_generation", "add_music"],
  ["services", "video_generation", "default_transition"],
  ["services", "video_generation", "enable_effects"],
  ["services", "video_generation", "subtitle_style"],
  ["services", "video_generation", "output_dir"],
  ["services", "video_generation", "music_path"],
  ["services", "insight_engine", "model"],
  ["services", "insight_engine", "cache_results"],
  ["services", "text_generation", "provider"],
  ["services", "text_generation", "model"],
  ["services", "text_generation", "temperature"],
  ["services", "text_generation", "max_tokens"],
  ["services", "text_generation", "fallback_to_template"],
  ["ui", "default_language"],
  ["ui", "default_include_images"],
  ["ui", "default_include_video"],
  ["ui", "theme_color"],
  ["ui", "accent_color"],
  ["ui", "font_family"]]

/-- The configuration surface as enumerated by the spec (its external
interfaces section): this definition follows the spec's words, to be
compared with `shippedConfigPaths` taken from the source. -/
def specSurfaceOptionPaths : List (List String) := [
  ["api_keys", "openai"],
  ["api_keys", "stability"],
  ["api_keys", "leonardo"],
  ["api_keys", "elevenlabs"],
  ["services", "cache", "enable_caching"],
  ["services", "cache", "cache_dir"],
  ["services", "cache", "max_cache_size_mb"],
  ["services", "cache", "cache_expiry_days"],
  ["services", "image_generation", "provider"],
  ["services", "image_generation", "model"],
  ["services", "image_generation", "image_size"],
  ["services", "image_generation", "fallback_to_placeholder"],
  ["services", "image_generation", "output_dir"],
  ["services", "audio_generation", "provider"],
  ["services", "audio_generation", "tamil_voice_id"],
  ["services", "audio_generation", "english_voice_id"],
  ["services", "audio_generation", "output_dir"],
  ["services", "video_generation", "default_fps"],
  ["services", "video_generation", "default_duration"],
  ["services", "video_generation", "add_music"],
  ["services", "video_generation", "default_transition"],
  ["services", "video_generation", "enable_effects"],
  ["services", "video_generation", "subtitle_style"],
  ["services", "video_generation", "output_dir"],
  ["services", "video_generation", "music_path"],
  ["services", "text_generation", "provider"],
  ["services", "text_generation", "model"],
  ["services", "text_generation", "temperature"],
  ["services", "text_generation", "max_tokens"],
  ["services", "text_generation", "fallback_to_template"]]

/-- C7 counterexample: the shipped default configuration contains the
option `services.insight_engine.model`, which is outside the configuration
surface enumerated by the spec. -/
theorem config_surface_counterexample :
    ["services", "insight_engine", "model"] ∈ shippedConfigPaths ∧
    ["services", "insight_engine", "model"] ∉ specSurfaceOptionPaths := by
  decide

/-- C7 amended: every option of the spec's configuration surface is
present in the shipped default configuration, but the shipped default
configuration also contains options outside that surface — exactly the
`services.insight_engine` and `ui` entries. -/
theorem config_surface_amended :
    specSurfaceOptionPaths.all (fun p => shippedConfigPaths.contains p) = true ∧
    shippedConfigPaths.filter (fun p => !(specSurfaceOptionPaths.contains p)) = [
      ["services", "insight_engine", "model"],
      ["services", "insight_engine", "cache_results"],
      ["ui", "default_language"],
      ["ui", "default_include_images"],
      ["ui", "default_include_video"],
      ["ui", "theme_color"],
      ["ui", "accent_color"],
      ["ui", "font_family"]] := by
  exact ⟨rfl, rfl⟩

/-- `TimelineData` of `types/literature`, with the fields the components
consume: era, timeframe, authors, themes. -/
structure TimelineData where
  era : String
  timeframe : String
  authors : List String
  themes : List String
deriving DecidableEq

/-- `SearchResult` of `types/literature`, with the fields `SearchPanel`
renders: text, translation, source. -/
structure SearchResult where
  text : String
  translation : String
  source : String
deriving DecidableEq

/-- The interpretation block of `TextAnalysisData`. -/
structure Interpretation where
  poetic : String
  cultural : String
  contemporary : String
deriving DecidableEq

/-- `TextAnalysisData` of `types/literature`, with the fields
`TextAnalysis` renders. -/
structure TextAnalysisData where
  originalText : String
  translation : String
  interpretation : Interpretation
deriving DecidableEq

/-- A failed HTTP request as observed inside the axios client: an optional
status code plus the underlying message — the information the `catch`
blocks of `literatureApi` discard. -/
structure HttpError where
  status : Option Nat
  message : String
deriving DecidableEq

/-- `literatureApi.getTimelineData`: returns the response data, and
replaces any failure by an `Error` with the fixed message
"Failed to fetch timeline data". -/
def getTimelineData (r : Except HttpError TimelineData) :
    Except String TimelineData :=
  match r with
  | .ok d => .ok d
  | .error _ => .error "Failed to fetch timeline data"

/-- `literatureApi.searchLiterature`: returns the response data, and
replaces any failure by an `Error` with the fixed message
"Search failed". -/
def searchLiterature (r : Except HttpError (List SearchResult)) :
    Except String (List SearchResult) :=
  match r with
  | .ok d => .ok d
  | .error _ => .error "Search failed"

/-- `literatureApi.getTextAnalysis`: returns the response data, and
replaces any failure by an `Error` with the fixed message
"Failed to fetch text analysis". -/
def getTextAnalysis (r : Except HttpError TextAnalysisData) :
    Except String TextAnalysisData :=
  match r with
  | .ok d => .ok d
  | .error _ => .error "Failed to fetch text analysis"

/-- C8: each `literatureApi` call maps every underlying HTTP failure to
its fixed error message — the result is independent of the original error
cause or status code — while success passes the data through. -/
theorem api_errors_fixed_messages (e1 e2 : HttpError) (t : TimelineData)
    (rs : List SearchResult) (ta : TextAnalysisData) :
    getTimelineData (.error e1) = .error "Failed to fetch timeline data" ∧
    searchLiterature (.error e1) = .error "Search failed" ∧
    getTextAnalysis (.error e1) = .error "Failed to fetch text analysis" ∧
    getTimelineData (.error e1) = getTimelineData (.error e2) ∧
    searchLiterature (.error e1) = searchLiterature (.error e2) ∧
    getTextAnalysis (.error e1) = getTextAnalysis (.error e2) ∧
    getTimelineData (.ok t) = .ok t ∧
    searchLiterature (.ok rs) = .ok rs ∧
    getTextAnalysis (.ok ta) = .ok ta := by
  refine ⟨rfl, rfl, rfl, rfl, rfl, rfl, rfl, rfl, rfl⟩

/-- State of the `useTextSearch` hook: results, loading flag, error. -/
structure SearchState where
  results : List SearchResult
  loading : Bool
  error : Option String
deriving DecidableEq

/-- A thrown JS value, as the hook's `catch` inspects it with
`err instanceof Error`. -/
inductive Thrown
  | jsError (message : String)
  | other
deriving DecidableEq

/-- The message `useTextSearch` derives from a thrown value:
`err instanceof Error ? err.message : 'Search failed'`. -/
def thrownMessage (t : Thrown) : String :=
  match t with
  | .jsError m => m
  | .other => "Search failed"

/-- `searchText` of `useTextSearch`: on success replaces the results and
clears the error; on a thrown error keeps the results and stores the
message; `loading` is cleared in the `finally` block either way. -/
def searchText (s : SearchState)
    (outcome : Except Thrown (List SearchResult)) : SearchState :=
  match outcome with
  | .ok rs => { results := rs, loading := false, error := none }
  | .error t =>
    { results := s.results, loading := false, error := some (thrownMessage t) }

/-- C9: on a failing search `useTextSearch` keeps the previous results,
sets a non-null error message and ends with `loading = false`; on a
successful search it replaces the results, resets the error to null and
ends with `loading = false`. -/
theorem useTextSearch_error_handling (s : SearchState)
    (rs : List SearchResult) (t : Thrown) :
    (searchText s (.error t)).results = s.results ∧
    (searchText s (.error t)).error = some (thrownMessage t) ∧
    (searchText s (.error t)).error ≠ none ∧
    (searchText s (.error t)).loading = false ∧
    (searchText s (.ok rs)).results = rs ∧
    (searchText s (.ok rs)).error = none ∧
    (searchText s (.ok rs)).loading = false := by
  refine ⟨rfl, rfl, by simp [searchText], rfl, rfl, rfl, rfl⟩

/-- What `TimelineChart` renders. -/
inductive Rendered
  | progressIndicator
  | errorAlert (message : String)
  | nothing
  | timelineContent (era timeframe : String) (authors themes : List String)
deriving DecidableEq

/-- JS truthiness of the optional `loading` prop (undefined and false are
falsy). -/
def truthyBool (b : Option Bool) : Bool :=
  match b with
  | some true => true
  | _ => false

/-- JS truthiness of the optional `error` prop (undefined and the empty
string are falsy). -/
def truthyStr (s : Option String) : Bool :=
  match s with
  | some m => !(m == "")
  | none => false

/-- `TimelineChart` from the source: the progress indicator while loading,
else the error alert, else nothing when no data, else the timeline content
built from the data's era, timeframe, authors and themes. -/
def timelineChart (data : Option TimelineData) (loading : Option Bool)
    (error : Option String) : Rendered :=
  if truthyBool loading then .progressIndicator
  else if truthyStr error then .errorAlert (error.getD "")
  else
    match data with
    | none => .nothing
    | some d => .timelineContent d.era d.timeframe d.authors d.themes

/-- C10: `TimelineChart` renders by fixed precedence — loading beats
error and data, a non-empty error beats data, absent data renders
nothing, and only otherwise is the timeline content rendered from the
data's fields. -/
theorem timelineChart_precedence (data : Option TimelineData)
    (loading : Option Bool) (error : Option String) (m : String)
    (d : TimelineData) :
    timelineChart data (some true) error = .progressIndicator ∧
    (truthyBool loading = false → m ≠ "" →
      timelineChart data loading (some m) = .errorAlert m) ∧
    (truthyBool loading = false → truthyStr error = false →
      timelineChart none loading error = .nothing) ∧
    (truthyBool loading = false → truthyStr error = false →
      timelineChart (some d) loading error
        = .timelineContent d.era d.timeframe d.authors d.themes) := by
  refine ⟨?_, ?_, ?_, ?_⟩
  · simp [timelineChart, truthyBool]
  · intro hl hm
    have hts : truthyStr (some m) = true := by
      simp [truthyStr, hm]
    simp [timelineChart, hl, hts]
  · intro hl he
    simp [timelineChart, hl, he]
  · intro hl he
    simp [timelineChart, hl, he]

/-- Witness for C10 at concrete props covering all four branches of the
precedence. -/
theorem timelineChart_precedence_witness :
    timelineChart none (some true) (some "boom") = .progressIndicator ∧
    timelineChart (some ⟨"Sangam", "BCE 300 - CE 300", [], []⟩) (some false)
      (some "boom") = .errorAlert "boom" ∧
    timelineChart none (some false) (some "") = .nothing ∧
    timelineChart (some ⟨"Sangam", "BCE 300 - CE 300", ["Kapilar"], ["Akam"]⟩)
      none none
      = .timelineContent "Sangam" "BCE 300 - CE 300" ["Kapilar"] ["Akam"] := by
  refine ⟨?_, ?_, ?_, ?_⟩
  · exact (timelineChart_precedence none none (some "boom") "x"
      ⟨"Sangam", "BCE 300 - CE 300", [], []⟩).1
  · exact (timelineChart_precedence (some ⟨"Sangam", "BCE 300 - CE 300", [], []⟩)
      (some false) none "boom"
      ⟨"Sangam", "BCE 300 - CE 300", [], []⟩).2.1 rfl (by decide)
  · exact (timelineChart_precedence none (some false) (some "") "x"
      ⟨"Sangam", "BCE 300 - CE 300", [], []⟩).2.2.1 rfl rfl
  · exact (timelineChart_precedence none none none "x"
      ⟨"Sangam", "BCE 300 - CE 300", ["Kapilar"], ["Akam"]⟩).2.2.2 rfl rfl

end ValluvarAI
